import Mathlib

/-!
Verification of the retry/backoff and error-classification core of the
API-Search repository, shallowly embedded from
`src/error_handling_examples.py`: the `ErrorType` enumeration, the
`APIError` record, `RetryStrategy.should_retry`, `RetryStrategy.get_delay`,
`RobustAPIClient._classify_error`, the `ErrorHandler` dispatch configured by
`RobustAPIClient`, and the retry loop `RobustAPIClient._make_request_with_retry`.

Conventions of the embedding:
* Python floats are embedded as rationals (`ℚ`); Python ints as `Int`.
* The wall-clock jitter source `time.time() % 1` of `get_delay` is passed as
  an explicit argument `tFrac`, constrained to `[0, 1)` in theorems.
* A Python exception escaping a function is embedded as `Except.error`
  carrying the exception message; normal returns are `Except.ok`.
* `Optional[T]` fields are `Option T`; Python truthiness of an
  `Optional[int]` (used by `get_delay`) is `intOptTruthy`.
-/

namespace APISearch

/-- The `ErrorType` enum of `error_handling_examples.py`. -/
inductive ErrorType where
  | NETWORK_ERROR
  | TIMEOUT_ERROR
  | AUTHENTICATION_ERROR
  | AUTHORIZATION_ERROR
  | RATE_LIMIT_ERROR
  | SERVER_ERROR
  | CLIENT_ERROR
  | VALIDATION_ERROR
  | UNKNOWN_ERROR
  deriving DecidableEq

/-- The `.value` string of each `ErrorType` member. -/
def ErrorType.value : ErrorType → String
  | .NETWORK_ERROR => "network_error"
  | .TIMEOUT_ERROR => "timeout_error"
  | .AUTHENTICATION_ERROR => "auth_error"
  | .AUTHORIZATION_ERROR => "authorization_error"
  | .RATE_LIMIT_ERROR => "rate_limit_error"
  | .SERVER_ERROR => "server_error"
  | .CLIENT_ERROR => "client_error"
  | .VALIDATION_ERROR => "validation_error"
  | .UNKNOWN_ERROR => "unknown_error"

/-- The `APIError` dataclass.  The `timestamp` and `original_exception`
fields are not consulted by any verified operation and are omitted. -/
structure APIError where
  error_type : ErrorType
  message : String
  status_code : Option Int
  retry_after : Option Int
  deriving DecidableEq

/-- The `RetryStrategy` configuration (constructor defaults: `max_retries=3`,
`base_delay=1.0`, `max_delay=60.0`, `backoff_factor=2.0`). -/
structure RetryStrategy where
  max_retries : Int
  base_delay : ℚ
  max_delay : ℚ
  backoff_factor : ℚ
  deriving DecidableEq

/-- `RetryStrategy()` with the constructor defaults. -/
def defaultStrategy : RetryStrategy :=
  ⟨3, 1, 60, 2⟩

/-- Python truthiness of an `Optional[int]`: `None` and `0` are falsy,
every other integer is truthy. -/
def intOptTruthy : Option Int → Bool
  | none => false
  | some n => decide (n ≠ 0)

/-- The `retryable_errors` list of `RetryStrategy.should_retry`. -/
def retryable_errors : List ErrorType :=
  [ErrorType.NETWORK_ERROR, ErrorType.TIMEOUT_ERROR,
   ErrorType.SERVER_ERROR, ErrorType.RATE_LIMIT_ERROR]

/-- `RetryStrategy.should_retry(error, attempt)`. -/
def should_retry (s : RetryStrategy) (error : APIError) (attempt : Int) : Bool :=
  if attempt ≥ s.max_retries then false
  else if error.error_type = ErrorType.CLIENT_ERROR ∧ error.status_code ≠ some 429 then false
  else if error.error_type = ErrorType.AUTHENTICATION_ERROR then false
  else decide (error.error_type ∈ retryable_errors)

/-- `RetryStrategy.get_delay(attempt, error)`.  The Python source reads
`time.time() % 1` for the jitter; that value (a fraction in `[0, 1)`) is the
explicit argument `tFrac`. -/
def get_delay (s : RetryStrategy) (attempt : Int) (error : APIError) (tFrac : ℚ) : ℚ :=
  if error.error_type = ErrorType.RATE_LIMIT_ERROR ∧ intOptTruthy error.retry_after = true then
    ((error.retry_after.getD 0 : Int) : ℚ)
  else
    let delay := min (s.base_delay * s.backoff_factor ^ attempt) s.max_delay
    let jitter := delay * (1 / 10) * (1 / 2 - tFrac)
    delay + jitter

/-- A network-kind `APIError`, as `_classify_error` builds it. -/
def networkErr : APIError :=
  ⟨ErrorType.NETWORK_ERROR, "Connection error", none, none⟩

/-- A server-kind `APIError` for status 500, as `_classify_error` builds it. -/
def serverErr : APIError :=
  ⟨ErrorType.SERVER_ERROR, "Server error: 500", some 500, none⟩

/-- A client-kind `APIError` whose `status_code` is 429. -/
def clientErr429 : APIError :=
  ⟨ErrorType.CLIENT_ERROR, "Client error: 429", some 429, none⟩

/-- A rate-limit `APIError` with `retry_after = n`. -/
def rateLimitErr (n : Int) : APIError :=
  ⟨ErrorType.RATE_LIMIT_ERROR, "Rate limit exceeded", some 429, some n⟩

/-- `should_retry` is false whenever the attempt count has reached
`max_retries`; shared helper for several results below. -/
theorem should_retry_of_le_max (s : RetryStrategy) (error : APIError) (attempt : Int)
    (h : s.max_retries ≤ attempt) : should_retry s error attempt = false := by
  simp [should_retry, h]

/-- C1: for every `attempt < max_retries`, `should_retry` returns true
exactly when the error kind is network, timeout, server, or rate_limit; it
returns false for authentication, authorization, validation, unknown, and
client (with any status code). -/
theorem should_retry_iff_retryable_kind (s : RetryStrategy) (error : APIError)
    (attempt : Int) (h : attempt < s.max_retries) :
    should_retry s error attempt = true ↔
      (error.error_type = ErrorType.NETWORK_ERROR ∨
       error.error_type = ErrorType.TIMEOUT_ERROR ∨
       error.error_type = ErrorType.SERVER_ERROR ∨
       error.error_type = ErrorType.RATE_LIMIT_ERROR) := by
  have hlt : ¬ attempt ≥ s.max_retries := not_le.mpr h
  obtain ⟨et, msg, sc, ra⟩ := error
  cases et <;> by_cases hsc : sc = some 429 <;>
    simp [should_retry, hlt, retryable_errors, hsc]

/-- Witness for C1 at a concrete input: a network error at attempt 0 with the
default strategy. -/
theorem should_retry_iff_retryable_kind_witness :
    (0 : Int) < defaultStrategy.max_retries ∧
      (should_retry defaultStrategy networkErr 0 = true ↔
        (networkErr.error_type = ErrorType.NETWORK_ERROR ∨
         networkErr.error_type = ErrorType.TIMEOUT_ERROR ∨
         networkErr.error_type = ErrorType.SERVER_ERROR ∨
         networkErr.error_type = ErrorType.RATE_LIMIT_ERROR)) :=
  ⟨by decide, should_retry_iff_retryable_kind defaultStrategy networkErr 0 (by decide)⟩

/-- C2: for every error kind and every `attempt ≥ max_retries`,
`should_retry` returns false. -/
theorem should_retry_false_at_max (s : RetryStrategy) (error : APIError)
    (attempt : Int) (h : attempt ≥ s.max_retries) :
    should_retry s error attempt = false :=
  should_retry_of_le_max s error attempt h

/-- Witness for C2 at a concrete input: a server error at attempt 3 with the
default strategy (`max_retries = 3`). -/
theorem should_retry_false_at_max_witness :
    (3 : Int) ≥ defaultStrategy.max_retries ∧
      should_retry defaultStrategy serverErr 3 = false :=
  ⟨by decide, should_retry_false_at_max defaultStrategy serverErr 3 (by decide)⟩

/-- C10: for every `attempt < max_retries`, an error of kind client is not
retried even when its `status_code` is 429 (or any other value): the 429
exemption in the client-error guard never reaches a retry because
`CLIENT_ERROR` is not in `retryable_errors`. -/
theorem should_retry_client_never (s : RetryStrategy) (error : APIError)
    (attempt : Int) (h : attempt < s.max_retries)
    (hk : error.error_type = ErrorType.CLIENT_ERROR) :
    should_retry s error attempt = false := by
  have hlt : ¬ attempt ≥ s.max_retries := not_le.mpr h
  by_cases hsc : error.status_code = some 429 <;>
    simp [should_retry, hlt, hk, hsc, retryable_errors]

/-- Witness for C10 at a concrete input: a client error with status 429 at
attempt 0 with the default strategy. -/
theorem should_retry_client_never_witness :
    (0 : Int) < defaultStrategy.max_retries ∧
      clientErr429.error_type = ErrorType.CLIENT_ERROR ∧
      should_retry defaultStrategy clientErr429 0 = false :=
  ⟨by decide, rfl, should_retry_client_never defaultStrategy clientErr429 0 (by decide) rfl⟩

/-- C5 counterexample: a rate-limit error whose `retry_after` is present but
equal to `0` does not get that value back verbatim.  `get_delay` tests
Python truthiness (`if error.retry_after:`), so `retry_after = 0` falls
through to the exponential-backoff path and yields 1, not 0. -/
theorem get_delay_zero_retry_after_not_verbatim :
    get_delay defaultStrategy 0 (rateLimitErr 0) (1 / 2) ≠
      (((rateLimitErr 0).retry_after.getD 0 : Int) : ℚ) := by
  norm_num [get_delay, defaultStrategy, rateLimitErr, intOptTruthy]

/-- C5 (amended): for every rate-limit error whose `retry_after` is present
and nonzero, `get_delay` returns that value verbatim, regardless of the
attempt number, the configuration, and the jitter source. -/
theorem get_delay_rate_limit_verbatim (s : RetryStrategy) (attempt : Int)
    (tFrac : ℚ) (error : APIError) (n : Int)
    (h1 : error.error_type = ErrorType.RATE_LIMIT_ERROR)
    (h2 : error.retry_after = some n) (h3 : n ≠ 0) :
    get_delay s attempt error tFrac = (n : ℚ) := by
  simp [get_delay, h1, h2, intOptTruthy, h3]

/-- Witness for the amended C5: `retry_after = 60` is returned verbatim at
attempt 7 with jitter source 1/4. -/
theorem get_delay_rate_limit_verbatim_witness :
    (rateLimitErr 60).error_type = ErrorType.RATE_LIMIT_ERROR ∧
      (rateLimitErr 60).retry_after = some 60 ∧ (60 : Int) ≠ 0 ∧
      get_delay defaultStrategy 7 (rateLimitErr 60) (1 / 4) = ((60 : Int) : ℚ) :=
  ⟨rfl, rfl, by decide,
    get_delay_rate_limit_verbatim defaultStrategy 7 (1 / 4) (rateLimitErr 60) 60 rfl rfl (by decide)⟩

/-- C6: off the rate-limit/retry-after path, the un-jittered delay (the
jitter term vanishes at `tFrac = 1/2`) equals
`min (base_delay * backoff_factor ^ attempt) max_delay`; with the default
configuration it is 1, 2, 4, 8 at attempts 0, 1, 2, 3 and 60 at attempt 10. -/
theorem get_delay_exponential_backoff :
    (∀ (s : RetryStrategy) (attempt : Int) (error : APIError),
        ¬ (error.error_type = ErrorType.RATE_LIMIT_ERROR ∧
            intOptTruthy error.retry_after = true) →
        get_delay s attempt error (1 / 2) =
          min (s.base_delay * s.backoff_factor ^ attempt) s.max_delay) ∧
      get_delay defaultStrategy 0 networkErr (1 / 2) = 1 ∧
      get_delay defaultStrategy 1 networkErr (1 / 2) = 2 ∧
      get_delay defaultStrategy 2 networkErr (1 / 2) = 4 ∧
      get_delay defaultStrategy 3 networkErr (1 / 2) = 8 ∧
      get_delay defaultStrategy 10 networkErr (1 / 2) = 60 := by
  have hgen : ∀ (s : RetryStrategy) (attempt : Int) (error : APIError),
      ¬ (error.error_type = ErrorType.RATE_LIMIT_ERROR ∧
          intOptTruthy error.retry_after = true) →
      get_delay s attempt error (1 / 2) =
        min (s.base_delay * s.backoff_factor ^ attempt) s.max_delay := by
    intro s attempt error hpath
    simp [get_delay, hpath]
  refine ⟨hgen, ?_, ?_, ?_, ?_, ?_⟩ <;>
    rw [hgen defaultStrategy _ networkErr (by decide)] <;>
    · simp only [defaultStrategy]
      rw [min_def]
      norm_num

/-- Witness for C6: the general conjunct applied to a network error at
attempt 2 with the default configuration. -/
theorem get_delay_exponential_backoff_witness :
    (¬ (networkErr.error_type = ErrorType.RATE_LIMIT_ERROR ∧
        intOptTruthy networkErr.retry_after = true)) ∧
      get_delay defaultStrategy 2 networkErr (1 / 2) =
        min (defaultStrategy.base_delay * defaultStrategy.backoff_factor ^ (2 : Int))
          defaultStrategy.max_delay :=
  ⟨by decide, get_delay_exponential_backoff.1 defaultStrategy 2 networkErr (by decide)⟩

/-- C7: for every attempt and every jitter-source value in `[0, 1)`, the
delay returned on the exponential-backoff path stays within ±5% of the
un-jittered value `min (base_delay * backoff_factor ^ attempt) max_delay`,
and is never negative (given the nonnegative configuration fields that the
spec requires). -/
theorem get_delay_jitter_bounds (s : RetryStrategy) (attempt : Int)
    (error : APIError) (tFrac : ℚ)
    (hb : 0 ≤ s.base_delay) (hf : 0 ≤ s.backoff_factor) (hm : 0 ≤ s.max_delay)
    (ht0 : 0 ≤ tFrac) (ht1 : tFrac < 1)
    (hpath : ¬ (error.error_type = ErrorType.RATE_LIMIT_ERROR ∧
        intOptTruthy error.retry_after = true)) :
    |get_delay s attempt error tFrac -
        min (s.base_delay * s.backoff_factor ^ attempt) s.max_delay| ≤
      (5 / 100) * min (s.base_delay * s.backoff_factor ^ attempt) s.max_delay ∧
      0 ≤ get_delay s attempt error tFrac := by
  have hd0 : 0 ≤ min (s.base_delay * s.backoff_factor ^ attempt) s.max_delay :=
    le_min (mul_nonneg hb (zpow_nonneg hf attempt)) hm
  have hgd : get_delay s attempt error tFrac =
      min (s.base_delay * s.backoff_factor ^ attempt) s.max_delay +
        min (s.base_delay * s.backoff_factor ^ attempt) s.max_delay *
          (1 / 10) * (1 / 2 - tFrac) := by
    simp [get_delay, hpath]
  set d := min (s.base_delay * s.backoff_factor ^ attempt) s.max_delay with hd
  have hdt0 : 0 ≤ d * tFrac := mul_nonneg hd0 ht0
  have hdt1 : d * tFrac ≤ d := by nlinarith
  constructor
  · rw [hgd, abs_le]
    constructor <;> nlinarith
  · rw [hgd]
    nlinarith

/-- Witness for C7: default configuration, network error, attempt 1, jitter
source 0. -/
theorem get_delay_jitter_bounds_witness :
    (0 : ℚ) ≤ defaultStrategy.base_delay ∧
      (|get_delay defaultStrategy 1 networkErr 0 -
          min (defaultStrategy.base_delay * defaultStrategy.backoff_factor ^ (1 : Int))
            defaultStrategy.max_delay| ≤
        (5 / 100) *
          min (defaultStrategy.base_delay * defaultStrategy.backoff_factor ^ (1 : Int))
            defaultStrategy.max_delay ∧
        0 ≤ get_delay defaultStrategy 1 networkErr 0) :=
  ⟨by decide,
    get_delay_jitter_bounds defaultStrategy 1 networkErr 0 (by decide) (by decide)
      (by decide) (by decide) (by decide) (by decide)⟩

/-- C9 counterexample: `get_delay` is not a function of the error, attempt
and configuration alone — two calls with the same such inputs but different
wall-clock jitter values (both admissible, in `[0, 1)`) differ. -/
theorem get_delay_depends_on_time :
    get_delay defaultStrategy 0 networkErr 0 ≠
      get_delay defaultStrategy 0 networkErr (1 / 2) := by
  simp only [get_delay, defaultStrategy, networkErr, intOptTruthy]
  norm_num

/-- C9 (amended): `should_retry` is a pure, total function of the error,
attempt and configuration.  `delay_before_retry` additionally depends on the
wall-clock jitter source on the backoff path, but on the rate-limit
verbatim path its result is independent of that source: two calls with the
same error, attempt and configuration return the same value. -/
theorem get_delay_deterministic_on_verbatim_path (s : RetryStrategy)
    (error : APIError) (attempt : Int) (t₁ t₂ : ℚ)
    (h1 : error.error_type = ErrorType.RATE_LIMIT_ERROR)
    (h2 : intOptTruthy error.retry_after = true) :
    get_delay s attempt error t₁ = get_delay s attempt error t₂ := by
  simp [get_delay, h1, h2]

/-- Witness for the amended C9: two different jitter sources give the same
delay for a rate-limit error with `retry_after = 60`. -/
theorem get_delay_deterministic_on_verbatim_path_witness :
    (rateLimitErr 60).error_type = ErrorType.RATE_LIMIT_ERROR ∧
      intOptTruthy (rateLimitErr 60).retry_after = true ∧
      get_delay defaultStrategy 0 (rateLimitErr 60) 0 =
        get_delay defaultStrategy 0 (rateLimitErr 60) (1 / 2) :=
  ⟨rfl, by decide,
    get_delay_deterministic_on_verbatim_path defaultStrategy (rateLimitErr 60) 0 0 (1 / 2)
      rfl (by decide)⟩

/-- The exception values distinguished by `_classify_error`:
`requests.exceptions.Timeout`, `requests.exceptions.ConnectionError`, the
`ValueError` raised by `int(...)`, and any other exception carrying its
`str`. -/
inductive PyExc where
  | timeout
  | connectionError
  | valueError (msg : String)
  | other (msg : String)
  deriving DecidableEq

/-- The part of an HTTP response consulted by `_classify_error`:
`response.status_code` and the `Retry-After` entry of `response.headers`. -/
structure Response where
  status_code : Int
  retry_after_header : Option String
  deriving DecidableEq

/-- `str(exception)` for the exception argument (possibly `None`).  The
strings for `timeout` and `connectionError` are never observed: those
exceptions are classified before the fall-through branch that reads them. -/
def pyStr : Option PyExc → String
  | none => "None"
  | some PyExc.timeout => "Request timed out"
  | some PyExc.connectionError => "Connection refused"
  | some (PyExc.valueError msg) => msg
  | some (PyExc.other msg) => msg

/-- Digit-string value, `none` when empty or containing a non-digit. -/
def digitsToNat (l : List Char) : Option Nat :=
  if l ≠ [] ∧ l.all Char.isDigit then
    some (l.foldl (fun acc c => acc * 10 + (c.toNat - 48)) 0)
  else none

/-- Python `int(s)` on a decimal string: optional surrounding (ASCII)
whitespace, an optional sign, then one or more digits (digit-group
underscores are not modelled).  `none` models the `ValueError` raise. -/
def pyParseInt (s : String) : Option Int :=
  match ((s.data.dropWhile Char.isWhitespace).reverse.dropWhile Char.isWhitespace).reverse with
  | [] => none
  | c :: cs =>
    if c = '-' then (digitsToNat cs).map (fun n => -(n : Int))
    else if c = '+' then (digitsToNat cs).map (fun n => (n : Int))
    else (digitsToNat (c :: cs)).map (fun n => (n : Int))

/-- `RobustAPIClient._classify_error(exception, response)`.  The call
the `int` conversion of the `Retry-After` header raises `ValueError` when the
header is present but not an integer literal; the raise is embedded as
`Except.error` carrying the exception message.  When the header is absent,
`int` is applied to the default `60`. -/
def _classify_error (exception : Option PyExc) (response : Option Response) :
    Except String APIError :=
  if exception = some PyExc.timeout then
    Except.ok ⟨ErrorType.TIMEOUT_ERROR, "Request timeout", none, none⟩
  else if exception = some PyExc.connectionError then
    Except.ok ⟨ErrorType.NETWORK_ERROR, "Connection error", none, none⟩
  else
    match response with
    | some resp =>
      if resp.status_code = 401 then
        Except.ok ⟨ErrorType.AUTHENTICATION_ERROR, "Authentication failed",
          some resp.status_code, none⟩
      else if resp.status_code = 403 then
        Except.ok ⟨ErrorType.AUTHORIZATION_ERROR, "Access forbidden",
          some resp.status_code, none⟩
      else if resp.status_code = 429 then
        match resp.retry_after_header with
        | none =>
          Except.ok ⟨ErrorType.RATE_LIMIT_ERROR, "Rate limit exceeded",
            some resp.status_code, some 60⟩
        | some hdr =>
          match pyParseInt hdr with
          | some n =>
            Except.ok ⟨ErrorType.RATE_LIMIT_ERROR, "Rate limit exceeded",
              some resp.status_code, some n⟩
          | none =>
            Except.error ("invalid literal for int() with base 10: " ++ hdr)
      else if 400 ≤ resp.status_code ∧ resp.status_code < 500 then
        Except.ok ⟨ErrorType.CLIENT_ERROR, "Client error: " ++ toString resp.status_code,
          some resp.status_code, none⟩
      else if 500 ≤ resp.status_code ∧ resp.status_code < 600 then
        Except.ok ⟨ErrorType.SERVER_ERROR, "Server error: " ++ toString resp.status_code,
          some resp.status_code, none⟩
      else
        Except.ok ⟨ErrorType.UNKNOWN_ERROR, pyStr exception, none, none⟩
    | none =>
      Except.ok ⟨ErrorType.UNKNOWN_ERROR, pyStr exception, none, none⟩

/-- Whether a classification returned normally (no raise). -/
def exceptIsOk : Except String APIError → Bool
  | Except.ok _ => true
  | Except.error _ => false

/-- The error kind of a classification that returned normally. -/
def classifiedKind : Except String APIError → Option ErrorType
  | Except.ok e => some e.error_type
  | Except.error _ => none

/-- C3: `_classify_error` maps a timeout exception to kind timeout, a
connection error to network; with no exception, a response with status 401
yields authentication, 403 authorization, 429 rate_limit carrying the parsed
`Retry-After` header value as `retry_after`, any other 400–499 status
client, 500–599 server; every other input (unrecognized status, or an
unrecognized exception with no response) yields unknown. -/
theorem classify_error_mapping :
    (∀ response, classifiedKind (_classify_error (some PyExc.timeout) response) =
        some ErrorType.TIMEOUT_ERROR) ∧
    (∀ response, classifiedKind (_classify_error (some PyExc.connectionError) response) =
        some ErrorType.NETWORK_ERROR) ∧
    (∀ resp : Response, resp.status_code = 401 →
        classifiedKind (_classify_error none (some resp)) =
          some ErrorType.AUTHENTICATION_ERROR) ∧
    (∀ resp : Response, resp.status_code = 403 →
        classifiedKind (_classify_error none (some resp)) =
          some ErrorType.AUTHORIZATION_ERROR) ∧
    (∀ (hdr : String) (n : Int), pyParseInt hdr = some n →
        _classify_error none (some ⟨429, some hdr⟩) =
          Except.ok ⟨ErrorType.RATE_LIMIT_ERROR, "Rate limit exceeded", some 429, some n⟩) ∧
    (∀ resp : Response, 400 ≤ resp.status_code → resp.status_code < 500 →
        resp.status_code ≠ 401 → resp.status_code ≠ 403 → resp.status_code ≠ 429 →
        classifiedKind (_classify_error none (some resp)) = some ErrorType.CLIENT_ERROR) ∧
    (∀ resp : Response, 500 ≤ resp.status_code → resp.status_code < 600 →
        classifiedKind (_classify_error none (some resp)) = some ErrorType.SERVER_ERROR) ∧
    (∀ resp : Response, ¬ (400 ≤ resp.status_code ∧ resp.status_code < 600) →
        classifiedKind (_classify_error none (some resp)) = some ErrorType.UNKNOWN_ERROR) ∧
    (∀ exc : Option PyExc, exc ≠ some PyExc.timeout → exc ≠ some PyExc.connectionError →
        classifiedKind (_classify_error exc none) = some ErrorType.UNKNOWN_ERROR) := by
  refine ⟨?_, ?_, ?_, ?_, ?_, ?_, ?_, ?_, ?_⟩
  · intro response
    simp [_classify_error, classifiedKind]
  · intro response
    simp [_classify_error, classifiedKind]
  · intro resp h
    simp [_classify_error, classifiedKind, h]
  · intro resp h
    have h401 : resp.status_code ≠ 401 := by omega
    simp [_classify_error, classifiedKind, h, h401]
  · intro hdr n h
    simp [_classify_error, classifiedKind, h]
  · intro resp h400 h500 h401 h403 h429
    simp [_classify_error, classifiedKind, h400, h500, h401, h403, h429]
  · intro resp h500 h600
    have h401 : resp.status_code ≠ 401 := by omega
    have h403 : resp.status_code ≠ 403 := by omega
    have h429 : resp.status_code ≠ 429 := by omega
    have hnc : ¬ (400 ≤ resp.status_code ∧ resp.status_code < 500) := by omega
    simp [_classify_error, classifiedKind, h500, h600, h401, h403, h429, hnc]
  · intro resp h
    have h401 : resp.status_code ≠ 401 := by omega
    have h403 : resp.status_code ≠ 403 := by omega
    have h429 : resp.status_code ≠ 429 := by omega
    have hc : ¬ (400 ≤ resp.status_code ∧ resp.status_code < 500) := by omega
    have hs : ¬ (500 ≤ resp.status_code ∧ resp.status_code < 600) := by omega
    simp [_classify_error, classifiedKind, h401, h403, h429, hc, hs]
  · intro exc h1 h2
    simp [_classify_error, classifiedKind, h1, h2]

/-- Witness for C3: a 429 response with header `Retry-After: 120` classifies
as rate_limit with `retry_after = 120`. -/
theorem classify_error_mapping_witness :
    pyParseInt "120" = some 120 ∧
      _classify_error none (some ⟨429, some "120"⟩) =
        Except.ok ⟨ErrorType.RATE_LIMIT_ERROR, "Rate limit exceeded", some 429, some 120⟩ :=
  ⟨by decide, classify_error_mapping.2.2.2.2.1 "120" 120 (by decide)⟩

/-- C4 counterexample: `_classify_error` does raise.  On a 429 response
whose `Retry-After` header is present but not an integer literal, the call
the `int` conversion of the `Retry-After` header raises `ValueError` instead
of defaulting to 60. -/
theorem classify_error_raises_on_unparseable_header :
    _classify_error none (some ⟨429, some "soon"⟩) =
      Except.error "invalid literal for int() with base 10: soon" := by
  rfl

/-- C4 (amended): `_classify_error` never raises — defaulting the kind to
unknown for unrecognized exception types, and defaulting `retry_after` to 60
when a 429 response has no `Retry-After` header — except in one case: a 429
response whose `Retry-After` header is present but unparseable as an
integer, where the `int` conversion raises `ValueError`. -/
theorem classify_error_total_amended :
    (∀ (exception : Option PyExc) (response : Option Response),
        (∀ resp : Response, response = some resp → resp.status_code = 429 →
          ∀ hdr : String, resp.retry_after_header = some hdr →
            (pyParseInt hdr).isSome = true) →
        exceptIsOk (_classify_error exception response) = true) ∧
    (∀ resp : Response, resp.status_code = 429 → resp.retry_after_header = none →
        _classify_error none (some resp) =
          Except.ok ⟨ErrorType.RATE_LIMIT_ERROR, "Rate limit exceeded", some 429, some 60⟩) ∧
    (∀ exc : Option PyExc, exc ≠ some PyExc.timeout → exc ≠ some PyExc.connectionError →
        classifiedKind (_classify_error exc none) = some ErrorType.UNKNOWN_ERROR) := by
  refine ⟨?_, ?_, ?_⟩
  · intro exception response hOk
    by_cases h1 : exception = some PyExc.timeout
    · simp [_classify_error, h1, exceptIsOk]
    by_cases h2 : exception = some PyExc.connectionError
    · simp [_classify_error, h1, h2, exceptIsOk]
    cases response with
    | none => simp [_classify_error, h1, h2, exceptIsOk]
    | some resp =>
      by_cases h401 : resp.status_code = 401
      · simp [_classify_error, h1, h2, h401, exceptIsOk]
      by_cases h403 : resp.status_code = 403
      · simp [_classify_error, h1, h2, h401, h403, exceptIsOk]
      by_cases h429 : resp.status_code = 429
      · cases hHdr : resp.retry_after_header with
        | none => simp [_classify_error, h1, h2, h401, h403, h429, hHdr, exceptIsOk]
        | some hdr =>
          have hp : (pyParseInt hdr).isSome = true := hOk resp rfl h429 hdr hHdr
          cases hpv : pyParseInt hdr with
          | none => rw [hpv] at hp; simp at hp
          | some n =>
            simp [_classify_error, h1, h2, h401, h403, h429, hHdr, hpv, exceptIsOk]
      by_cases hc : 400 ≤ resp.status_code ∧ resp.status_code < 500
      · simp [_classify_error, h1, h2, h401, h403, h429, hc, exceptIsOk]
      by_cases hs : 500 ≤ resp.status_code ∧ resp.status_code < 600
      · simp [_classify_error, h1, h2, h401, h403, h429, hc, hs, exceptIsOk]
      · simp [_classify_error, h1, h2, h401, h403, h429, hc, hs, exceptIsOk]
  · intro resp h429 hHdr
    have h401 : resp.status_code ≠ 401 := by omega
    have h403 : resp.status_code ≠ 403 := by omega
    simp [_classify_error, h401, h403, h429, hHdr]
  · intro exc h1 h2
    simp [_classify_error, classifiedKind, h1, h2]

/-- Witness for the amended C4: a 429 response whose header parses (value
`15`) is classified without a raise. -/
theorem classify_error_total_amended_witness :
    (∀ resp : Response, some (⟨429, some "15"⟩ : Response) = some resp →
        resp.status_code = 429 → ∀ hdr : String, resp.retry_after_header = some hdr →
          (pyParseInt hdr).isSome = true) ∧
      exceptIsOk (_classify_error none (some ⟨429, some "15"⟩)) = true :=
  ⟨by intro resp hr h429 hdr hh
      cases hr
      cases hh
      decide,
    classify_error_total_amended.1 none (some ⟨429, some "15"⟩)
      (by intro resp hr h429 hdr hh
          cases hr
          cases hh
          decide)⟩

/-- `ErrorHandler._default_error_handling`. -/
def _default_error_handling (error : APIError) : Bool :=
  if error.error_type = ErrorType.AUTHENTICATION_ERROR then false
  else if error.error_type = ErrorType.RATE_LIMIT_ERROR then true
  else if error.error_type = ErrorType.SERVER_ERROR then true
  else if error.error_type = ErrorType.NETWORK_ERROR then true
  else false

/-- `ErrorHandler.handle_error` as configured by `RobustAPIClient`:
callbacks are registered for authentication, rate-limit and server errors.
A callback that returns yields `true`; a callback that raises (the
`time.sleep(error.retry_after)` call in the rate-limit callback can, on a
`None` or negative value) is caught, falling back to `_default_error_handling`, which
also yields `true` for the rate-limit kind — so all three registered kinds
yield `true` either way. -/
def handle_error (error : APIError) : Bool :=
  if error.error_type = ErrorType.AUTHENTICATION_ERROR ∨
      error.error_type = ErrorType.RATE_LIMIT_ERROR ∨
      error.error_type = ErrorType.SERVER_ERROR then true
  else _default_error_handling error

/-- The transport behaviour of a single attempt, as observed by the loop in
`_make_request_with_retry`: a received HTTP response together with the
result of `response.json()` (`Except.error` models the decode exception), a
`requests.exceptions.Timeout`, a `requests.exceptions.ConnectionError`, or
any other exception raised by the request call. -/
inductive AttemptOutcome where
  | httpResponse (resp : Response) (jsonBody : Except String String)
  | timeoutExc
  | connectionExc
  | otherExc (msg : String)

/-- The dict returned by `_make_request_with_retry`.  In `failure`, the
outer `Option` of `status_code` is `none` when the Python dict has no
`status_code` key, `some v` when the key is present with value `v`
(itself `None` or an integer). -/
inductive RequestResult where
  | success (data : String) (status_code : Int)
  | failure (error : String) (error_type : String) (status_code : Option (Option Int))
  deriving DecidableEq

/-- Composition of a classification that may raise with the surrounding
`except Exception` handler of the loop: a raised `ValueError` is
re-classified by `_classify_error(e)`, landing in the fall-through
`UNKNOWN_ERROR` branch with `str(e)` as the message.  On exception-only
inputs (`response` absent) `_classify_error` never raises, so the `error`
arm is inert there. -/
def raiseToUnknown : Except String APIError → APIError
  | Except.ok e => e
  | Except.error msg => ⟨ErrorType.UNKNOWN_ERROR, msg, none, none⟩

/-- One iteration of the loop body of `_make_request_with_retry` at a given
attempt: `some r` when the body returns the dict `r`, `none` when it sleeps
and falls through to the next attempt. -/
def loopBodyStep (s : RetryStrategy) (o : AttemptOutcome) (attempt : Nat) :
    Option RequestResult :=
  match o with
  | AttemptOutcome.httpResponse resp jsonBody =>
    if resp.status_code = 200 then
      match jsonBody with
      | Except.ok data => some (RequestResult.success data resp.status_code)
      | Except.error msg =>
        let error := raiseToUnknown (_classify_error (some (PyExc.other msg)) none)
        some (RequestResult.failure error.message error.error_type.value none)
    else
      match _classify_error none (some resp) with
      | Except.error emsg =>
        let error := raiseToUnknown (Except.error emsg)
        some (RequestResult.failure error.message error.error_type.value none)
      | Except.ok error =>
        if ¬ should_retry s error (attempt : Int) then
          some (RequestResult.failure error.message error.error_type.value
            (some error.status_code))
        else if ¬ handle_error error then
          some (RequestResult.failure error.message error.error_type.value
            (some error.status_code))
        else none
  | AttemptOutcome.timeoutExc =>
    let error := raiseToUnknown (_classify_error (some PyExc.timeout) none)
    if ¬ should_retry s error (attempt : Int) then
      some (RequestResult.failure error.message error.error_type.value none)
    else none
  | AttemptOutcome.connectionExc =>
    let error := raiseToUnknown (_classify_error (some PyExc.connectionError) none)
    if ¬ should_retry s error (attempt : Int) then
      some (RequestResult.failure error.message error.error_type.value none)
    else none
  | AttemptOutcome.otherExc msg =>
    let error := raiseToUnknown (_classify_error (some (PyExc.other msg)) none)
    some (RequestResult.failure error.message error.error_type.value none)

/-- The `for attempt in range(max_retries + 1)` loop, with `fuel` the number
of remaining iterations. -/
def retryLoopGo (s : RetryStrategy) (outcomes : Nat → AttemptOutcome) :
    Nat → Nat → RequestResult
  | 0, _ => RequestResult.failure "Max retries exceeded" "max_retries_exceeded" none
  | fuel + 1, attempt =>
    match loopBodyStep s (outcomes attempt) attempt with
    | some r => r
    | none => retryLoopGo s outcomes fuel (attempt + 1)

/-- `RobustAPIClient._make_request_with_retry`, with the transport behaviour
of attempt `i` supplied by `outcomes i`. -/
def _make_request_with_retry (s : RetryStrategy) (outcomes : Nat → AttemptOutcome) :
    RequestResult :=
  retryLoopGo s outcomes (s.max_retries + 1).toNat 0

/-- Whether the loop body at `attempt` on outcome `o` falls through to the
next iteration (the error was classified, `should_retry` said yes and
`handle_error` did not veto). -/
def attemptRetries (s : RetryStrategy) (o : AttemptOutcome) (attempt : Nat) : Bool :=
  (loopBodyStep s o attempt).isNone

/-- A transport outcome that does not produce a success return. -/
def isFailingOutcome : AttemptOutcome → Bool
  | AttemptOutcome.httpResponse resp jsonBody =>
    if resp.status_code = 200 then
      match jsonBody with
      | Except.ok _ => false
      | Except.error _ => true
    else true
  | _ => true

/-- The `ClassifiedError` a failing outcome produces inside the loop body
(junk on a succeeding outcome). -/
def classifyOutcome : AttemptOutcome → APIError
  | AttemptOutcome.httpResponse resp jsonBody =>
    if resp.status_code = 200 then
      match jsonBody with
      | Except.ok _ => ⟨ErrorType.UNKNOWN_ERROR, "", none, none⟩
      | Except.error msg => raiseToUnknown (_classify_error (some (PyExc.other msg)) none)
    else raiseToUnknown (_classify_error none (some resp))
  | AttemptOutcome.timeoutExc => raiseToUnknown (_classify_error (some PyExc.timeout) none)
  | AttemptOutcome.connectionExc =>
    raiseToUnknown (_classify_error (some PyExc.connectionError) none)
  | AttemptOutcome.otherExc msg =>
    raiseToUnknown (_classify_error (some (PyExc.other msg)) none)

/-- The `status_code` slot of the failure dict returned when the loop
stops at outcome `o` without retrying: present exactly on the
response-classified non-retry path. -/
def stopStatusSlot : AttemptOutcome → Option (Option Int)
  | AttemptOutcome.httpResponse resp _ =>
    if resp.status_code = 200 then none
    else
      match _classify_error none (some resp) with
      | Except.error _ => none
      | Except.ok error => some error.status_code
  | _ => none

/-- Unfolding the loop by one iteration. -/
theorem retryLoopGo_succ (s : RetryStrategy) (outcomes : Nat → AttemptOutcome)
    (fuel attempt : Nat) :
    retryLoopGo s outcomes (fuel + 1) attempt =
      match loopBodyStep s (outcomes attempt) attempt with
      | some r => r
      | none => retryLoopGo s outcomes fuel (attempt + 1) := rfl

/-- Once the attempt count reaches `max_retries`, the loop body never falls
through: `should_retry` is false there on every path. -/
theorem attemptRetries_at_max (s : RetryStrategy) (o : AttemptOutcome) (attempt : Nat)
    (h : s.max_retries ≤ (attempt : Int)) : attemptRetries s o attempt = false := by
  cases o with
  | httpResponse resp jsonBody =>
    by_cases h200 : resp.status_code = 200
    · cases jsonBody <;> simp [attemptRetries, loopBodyStep, h200]
    · cases hcl : _classify_error none (some resp) with
      | error e => simp [attemptRetries, loopBodyStep, h200, hcl]
      | ok error =>
        simp [attemptRetries, loopBodyStep, h200, hcl,
          should_retry_of_le_max s error _ h]
  | timeoutExc => simp [attemptRetries, loopBodyStep, should_retry_of_le_max _ _ _ h]
  | connectionExc => simp [attemptRetries, loopBodyStep, should_retry_of_le_max _ _ _ h]
  | otherExc msg => simp [attemptRetries, loopBodyStep]

/-- When the loop body stops on a failing outcome, it returns the failure
dict carrying the classification of that outcome. -/
theorem loopBodyStep_stop (s : RetryStrategy) (o : AttemptOutcome) (attempt : Nat)
    (hfail : isFailingOutcome o = true)
    (hnr : attemptRetries s o attempt = false) :
    loopBodyStep s o attempt =
      some (RequestResult.failure (classifyOutcome o).message
        (classifyOutcome o).error_type.value (stopStatusSlot o)) := by
  cases o with
  | httpResponse resp jsonBody =>
    by_cases h200 : resp.status_code = 200
    · cases jsonBody with
      | ok data => simp [isFailingOutcome, h200] at hfail
      | error msg => simp [loopBodyStep, classifyOutcome, stopStatusSlot, h200]
    · cases hcl : _classify_error none (some resp) with
      | error emsg => simp [loopBodyStep, classifyOutcome, stopStatusSlot, h200, hcl]
      | ok error =>
        cases hsr : should_retry s error (attempt : Int) with
        | false =>
          simp [loopBodyStep, classifyOutcome, stopStatusSlot, raiseToUnknown, h200, hcl, hsr]
        | true =>
          cases hhe : handle_error error with
          | false =>
            simp [loopBodyStep, classifyOutcome, stopStatusSlot, raiseToUnknown, h200, hcl,
              hsr, hhe]
          | true =>
            exfalso
            simp [attemptRetries, loopBodyStep, h200, hcl, hsr, hhe] at hnr
  | timeoutExc =>
    cases hsr : should_retry s (raiseToUnknown (_classify_error (some PyExc.timeout) none))
        (attempt : Int) with
    | false => simp [loopBodyStep, classifyOutcome, stopStatusSlot, hsr]
    | true =>
      exfalso
      simp [attemptRetries, loopBodyStep, hsr] at hnr
  | connectionExc =>
    cases hsr : should_retry s (raiseToUnknown (_classify_error (some PyExc.connectionError) none))
        (attempt : Int) with
    | false => simp [loopBodyStep, classifyOutcome, stopStatusSlot, hsr]
    | true =>
      exfalso
      simp [attemptRetries, loopBodyStep, hsr] at hnr
  | otherExc msg => simp [loopBodyStep, classifyOutcome, stopStatusSlot]

/-- Running the loop with `f + 1` iterations of fuel from attempt `a`, when
every attempt before the last falls through and the last fails without
retrying, yields the failure dict built from the classification of the last
attempt. -/
theorem retryLoopGo_exhaust (s : RetryStrategy) (outcomes : Nat → AttemptOutcome)
    (f : Nat) :
    ∀ a : Nat, (∀ i, a ≤ i → i < a + f → attemptRetries s (outcomes i) i = true) →
      attemptRetries s (outcomes (a + f)) (a + f) = false →
      isFailingOutcome (outcomes (a + f)) = true →
      retryLoopGo s outcomes (f + 1) a =
        RequestResult.failure (classifyOutcome (outcomes (a + f))).message
          (classifyOutcome (outcomes (a + f))).error_type.value
          (stopStatusSlot (outcomes (a + f))) := by
  induction f with
  | zero =>
    intro a hr hnr hfail
    rw [Nat.add_zero] at hnr hfail
    rw [retryLoopGo_succ, loopBodyStep_stop s (outcomes a) a hfail hnr]
    simp
  | succ f ih =>
    intro a hr hnr hfail
    have hcont : attemptRetries s (outcomes a) a = true := hr a le_rfl (by omega)
    have hnone : loopBodyStep s (outcomes a) a = none :=
      Option.isNone_iff_eq_none.mp hcont
    rw [retryLoopGo_succ, hnone]
    have hidx : a + (f + 1) = a + 1 + f := by omega
    rw [hidx] at hnr hfail ⊢
    exact ih (a + 1) (fun i h1 h2 => hr i (by omega) (by omega)) hnr hfail

/-- C8: when the retry loop exhausts its attempts — every attempt up to
`max_retries` fails, the earlier ones retried — it returns a failure dict
(`success` absent, i.e. a `failure` value, never a raise) carrying the
`ClassifiedError` of the last attempt: its message, the `.value` string of
its kind, and its status code when the stop happened on the response path. -/
theorem retry_loop_exhaustion_failure (s : RetryStrategy)
    (outcomes : Nat → AttemptOutcome) (m : Nat) (hm : s.max_retries = (m : Int))
    (hretries : ∀ i, i < m → attemptRetries s (outcomes i) i = true)
    (hfail : isFailingOutcome (outcomes m) = true) :
    _make_request_with_retry s outcomes =
      RequestResult.failure (classifyOutcome (outcomes m)).message
        (classifyOutcome (outcomes m)).error_type.value (stopStatusSlot (outcomes m)) := by
  have hfuel : (s.max_retries + 1).toNat = m + 1 := by rw [hm]; omega
  have hnr : attemptRetries s (outcomes m) m = false :=
    attemptRetries_at_max s (outcomes m) m (by rw [hm])
  have h := retryLoopGo_exhaust s outcomes m 0
    (fun i h1 h2 => hretries i (by omega)) (by simpa using hnr) (by simpa using hfail)
  unfold _make_request_with_retry
  rw [hfuel]
  simpa using h

/-- Witness for C8: with the default strategy (`max_retries = 3`) and every
attempt timing out, the loop returns the failure dict of the last timeout. -/
theorem retry_loop_exhaustion_failure_witness :
    _make_request_with_retry defaultStrategy (fun _ => AttemptOutcome.timeoutExc) =
      RequestResult.failure "Request timeout" "timeout_error" none :=
  retry_loop_exhaustion_failure defaultStrategy (fun _ => AttemptOutcome.timeoutExc) 3
    (by decide) (by decide) (by decide)

end APISearch
